import Mathlib

/-!
Verification of the Insurance_Template_Filler pipeline.

The repository contains two front ends driving one pipeline:
`src/flask_app.py` (HTTP handler `process_documents` plus helpers
`allowed_file` and `extract_text_from_pdfs`) and `src/streamlit_app.py`
(the `run_btn` block plus helper `pdfs_to_text`).  This file gives a
shallow embedding of that orchestration logic.  External collaborators
(pdfplumber, docxtpl, the LLM provider) are modelled as oracle data:
each uploaded report carries the pdfplumber behaviour of its bytes, the
template part carries the docxtpl behaviour of its bytes, and the LLM
client is a function from the prompt to an outcome.  Python's
`json.loads` is embedded as an executable JSON parser.
-/

namespace ITF

/-! ## Python string primitives used by the code -/

/-- Python `str.strip()` default whitespace characters (ASCII part). -/
def pyIsSpace (c : Char) : Bool :=
  c = ' ' || c = '\t' || c = '\n' || c = '\r' || c = Char.ofNat 11 || c = Char.ofNat 12

/-- Python `str.strip()` with no arguments. -/
def pyStrip (s : String) : String :=
  ⟨((s.data.dropWhile pyIsSpace).reverse.dropWhile pyIsSpace).reverse⟩

/-- Lowercasing of a single ASCII character, as Python `str.lower()` does. -/
def pyLowerChar (c : Char) : Char :=
  if 'A' ≤ c && c ≤ 'Z' then Char.ofNat (c.toNat + 32) else c

/-- Python `str.lower()` (ASCII). -/
def pyLower (s : String) : String := ⟨s.data.map pyLowerChar⟩

/-- The part of `s` after its last `'.'`; this is `s.rsplit('.', 1)[1]`
when `s` contains a dot. -/
def afterLastDot (s : String) : String :=
  ⟨((s.data.reverse).takeWhile (fun c => c ≠ '.')).reverse⟩

/-- Embedding of `allowed_file` (src/flask_app.py lines 153-156):
`'.' in filename and filename.rsplit('.', 1)[1].lower() in allowed_extensions`. -/
def allowed_file (filename : String) (allowed_extensions : List String) : Bool :=
  filename.data.contains '.' && allowed_extensions.contains (pyLower (afterLastDot filename))

/-! ## Oracle model of pdfplumber behaviour

`page.extract_text()` either raises (`fail`), returns `None`
(`text none`) or returns a string (`text (some s)`).  Opening a file
with `pdfplumber.open` either raises (`openFail`) or yields the pages. -/

inductive PageOutcome where
  | fail
  | text (t : Option String)
deriving DecidableEq

inductive DocOutcome where
  | openFail
  | pages (ps : List PageOutcome)
deriving DecidableEq

/-- The page loop of `extract_text_from_pdfs` (src/flask_app.py
lines 179-189): per-page failures are swallowed, `if page_text:` keeps
only truthy (non-`None`, non-empty) results, successes are appended to
the running `text_chunks` accumulator. -/
def flaskPageLoop : List PageOutcome → List String → List String
  | [], acc => acc
  | PageOutcome.fail :: rest, acc => flaskPageLoop rest acc
  | PageOutcome.text none :: rest, acc => flaskPageLoop rest acc
  | PageOutcome.text (some s) :: rest, acc =>
      if s = "" then flaskPageLoop rest acc else flaskPageLoop rest (acc ++ [s])

/-- The document loop of `extract_text_from_pdfs` (src/flask_app.py
lines 172-194): a document that fails to open is logged and skipped. -/
def flaskDocLoop : List DocOutcome → List String → List String
  | [], acc => acc
  | DocOutcome.openFail :: rest, acc => flaskDocLoop rest acc
  | DocOutcome.pages ps :: rest, acc => flaskDocLoop rest (flaskPageLoop ps acc)

/-- Embedding of `extract_text_from_pdfs` (src/flask_app.py lines
167-198): run the loops on an empty accumulator and `"\n".join` it. -/
def extract_text_from_pdfs (docs : List DocOutcome) : String :=
  String.intercalate "\n" (flaskDocLoop docs [])

/-- The page texts a run of the Text Extractor should keep, following
the spec's words (spec.md section 4.2): every successfully extracted
page's text, pages that fail or yield no text contributing nothing. -/
def specPageTexts (ps : List PageOutcome) : List String :=
  ps.filterMap (fun p =>
    match p with
    | PageOutcome.text (some s) => if s = "" then none else some s
    | _ => none)

/-- The chunk list the spec describes (spec.md section 4.2): document
order then page order, a document that fails to open contributing
nothing. -/
def specChunks (docs : List DocOutcome) : List String :=
  (docs.map (fun d =>
    match d with
    | DocOutcome.openFail => []
    | DocOutcome.pages ps => specPageTexts ps)).flatten

/-- Embedding of the streamlit page loop body (src/streamlit_app.py
lines 32-34): `page_text = page.extract_text() or ""` appends even the
empty string, and an extraction exception propagates (no try/except). -/
def streamlitPageLoop : List PageOutcome → Option (List String)
  | [] => some []
  | PageOutcome.fail :: _ => none
  | PageOutcome.text t :: rest =>
      (streamlitPageLoop rest).map (fun l => t.getD "" :: l)

/-- Embedding of the streamlit document loop (src/streamlit_app.py
lines 30-34): `pdfplumber.open` failures propagate (no try/except). -/
def streamlitDocLoop : List DocOutcome → Option (List String)
  | [] => some []
  | DocOutcome.openFail :: _ => none
  | DocOutcome.pages ps :: rest =>
      match streamlitPageLoop ps with
      | none => none
      | some a =>
        match streamlitDocLoop rest with
        | none => none
        | some b => some (a ++ b)

/-- Embedding of `pdfs_to_text` (src/streamlit_app.py lines 27-35);
`none` models an uncaught exception aborting the script run. -/
def pdfs_to_text (docs : List DocOutcome) : Option String :=
  (streamlitDocLoop docs).map (String.intercalate "\n")

/-! ## Embedding of Python `json.loads`

Both front ends parse the raw LLM response with `json.loads`.  We embed
it as an executable recursive-descent parser over the JSON grammar that
Python's `json` module accepts by default (any top-level JSON value,
the `Infinity`/`NaN` extensions included).  Numbers keep their source
lexeme, since the pipeline never computes with them. -/

inductive JValue where
  | null
  | bool (b : Bool)
  | num (lexeme : String)
  | str (s : String)
  | arr (elems : List JValue)
  | obj (fields : List (String × JValue))

/-- Whether a parsed value is a JSON object. -/
def isJObj : JValue → Bool
  | JValue.obj _ => true
  | _ => false

/-- The whitespace `json.loads` skips between tokens. -/
def jIsWs (c : Char) : Bool := c = ' ' || c = '\t' || c = '\n' || c = '\r'

def skipWs (cs : List Char) : List Char := cs.dropWhile jIsWs

def lcurl : Char := Char.ofNat 123

def rcurl : Char := Char.ofNat 125

/-- Value of one hexadecimal digit, via its code point: digits are
48-57, lowercase letters 97-102, uppercase ones 65-70. -/
def hexVal (c : Char) : Option Nat :=
  let n := c.toNat
  if 48 ≤ n && n ≤ 57 then some (n - 48)
  else if 97 ≤ n && n ≤ 102 then some (n - 87)
  else if 65 ≤ n && n ≤ 70 then some (n - 55)
  else none

/-- Scan the body of a JSON string after its opening quote, handling
escape sequences; strict mode rejects raw control characters. -/
def strChars : Nat → List Char → Option (List Char × List Char)
  | 0, _ => none
  | _ + 1, [] => none
  | fuel + 1, c :: cs =>
    if c = '"' then some ([], cs)
    else if c = '\\' then
      match cs with
      | [] => none
      | e :: cs1 =>
        let esc : Option (Char × List Char) :=
          if e = '"' then some ('"', cs1)
          else if e = '\\' then some ('\\', cs1)
          else if e = '/' then some ('/', cs1)
          else if e = 'b' then some (Char.ofNat 8, cs1)
          else if e = 'f' then some (Char.ofNat 12, cs1)
          else if e = 'n' then some ('\n', cs1)
          else if e = 'r' then some ('\r', cs1)
          else if e = 't' then some ('\t', cs1)
          else if e = 'u' then
            match cs1 with
            | a :: b :: c2 :: d :: cs2 =>
              match hexVal a, hexVal b, hexVal c2, hexVal d with
              | some ha, some hb, some hc, some hd =>
                  some (Char.ofNat (((ha * 16 + hb) * 16 + hc) * 16 + hd), cs2)
              | _, _, _, _ => none
            | _ => none
          else none
        match esc with
        | none => none
        | some (ch, rest) =>
          match strChars fuel rest with
          | none => none
          | some (l, r) => some (ch :: l, r)
    else if c.toNat < 32 then none
    else
      match strChars fuel cs with
      | none => none
      | some (l, r) => some (c :: l, r)

/-- Whether `c` is a decimal digit (code points 48-57). -/
def isDigitChar (c : Char) : Bool := 48 ≤ c.toNat && c.toNat ≤ 57

/-- Lex a JSON number (sign, integer part with no leading zero,
optional fraction, optional exponent), returning its lexeme and the
rest of the input. -/
def parseNumberLex (cs : List Char) : Option (List Char × List Char) :=
  let (sgn, cs1) :=
    match cs with
    | '-' :: t => ((['-'] : List Char), t)
    | _ => (([] : List Char), cs)
  let ip := cs1.takeWhile isDigitChar
  let cs2 := cs1.dropWhile isDigitChar
  if ip = [] then none
  else if 1 < ip.length && ip.headD '0' = '0' then none
  else
    let (fp, cs3) :=
      match cs2 with
      | '.' :: t =>
        let ds := t.takeWhile isDigitChar
        if ds = [] then (([] : List Char), cs2)
        else ('.' :: ds, t.dropWhile isDigitChar)
      | _ => (([] : List Char), cs2)
    let (ep, cs4) :=
      match cs3 with
      | e :: t =>
        if e = 'e' || e = 'E' then
          let (s2, t2) :=
            match t with
            | '+' :: u => ((['+'] : List Char), u)
            | '-' :: u => ((['-'] : List Char), u)
            | _ => (([] : List Char), t)
          let ds := t2.takeWhile isDigitChar
          if ds = [] then (([] : List Char), cs3)
          else (e :: (s2 ++ ds), t2.dropWhile isDigitChar)
        else (([] : List Char), cs3)
      | [] => (([] : List Char), cs3)
    some (sgn ++ ip ++ fp ++ ep, cs4)

inductive PMode where
  | val
  | members
  | items

inductive PRes where
  | v (x : JValue)
  | fields (l : List (String × JValue))
  | elems (l : List JValue)

/-- One fueled recursive-descent step: parse a value, the members of an
object after its opening brace, or the items of an array after its
opening bracket. -/
def parseStep : Nat → PMode → List Char → Option (PRes × List Char)
  | 0, _, _ => none
  | fuel + 1, PMode.val, cs0 =>
    match skipWs cs0 with
    | '"' :: rest =>
      match strChars (fuel + 1) rest with
      | none => none
      | some (l, r) => some (PRes.v (JValue.str ⟨l⟩), r)
    | 't' :: 'r' :: 'u' :: 'e' :: rest => some (PRes.v (JValue.bool true), rest)
    | 'f' :: 'a' :: 'l' :: 's' :: 'e' :: rest => some (PRes.v (JValue.bool false), rest)
    | 'n' :: 'u' :: 'l' :: 'l' :: rest => some (PRes.v JValue.null, rest)
    | 'I' :: 'n' :: 'f' :: 'i' :: 'n' :: 'i' :: 't' :: 'y' :: rest =>
        some (PRes.v (JValue.num "Infinity"), rest)
    | 'N' :: 'a' :: 'N' :: rest => some (PRes.v (JValue.num "NaN"), rest)
    | '-' :: 'I' :: 'n' :: 'f' :: 'i' :: 'n' :: 'i' :: 't' :: 'y' :: rest =>
        some (PRes.v (JValue.num "-Infinity"), rest)
    | '[' :: rest =>
        (match skipWs rest with
        | c2 :: rest2 =>
          if c2 = ']' then some (PRes.v (JValue.arr []), rest2)
          else
            match parseStep fuel PMode.items (skipWs rest) with
            | some (PRes.elems es, r) => some (PRes.v (JValue.arr es), r)
            | _ => none
        | [] => none)
    | cs =>
      if cs.headD ' ' = lcurl then
        match skipWs cs.tail with
        | c2 :: rest2 =>
          if c2 = rcurl then some (PRes.v (JValue.obj []), rest2)
          else
            match parseStep fuel PMode.members (skipWs cs.tail) with
            | some (PRes.fields fs, r) => some (PRes.v (JValue.obj fs), r)
            | _ => none
        | [] => none
      else
        match parseNumberLex cs with
        | none => none
        | some (lex, r) => some (PRes.v (JValue.num ⟨lex⟩), r)
  | fuel + 1, PMode.members, cs0 =>
    match skipWs cs0 with
    | '"' :: rest =>
      match strChars fuel rest with
      | none => none
      | some (kl, cs1) =>
        match skipWs cs1 with
        | ':' :: cs2 =>
          (match parseStep fuel PMode.val cs2 with
          | some (PRes.v v, cs3) =>
            (match skipWs cs3 with
            | c :: cs4 =>
              if c = ',' then
                match parseStep fuel PMode.members cs4 with
                | some (PRes.fields fs, r) => some (PRes.fields ((⟨kl⟩, v) :: fs), r)
                | _ => none
              else if c = rcurl then some (PRes.fields [(⟨kl⟩, v)], cs4)
              else none
            | [] => none)
          | _ => none)
        | _ => none
    | _ => none
  | fuel + 1, PMode.items, cs0 =>
    match parseStep fuel PMode.val cs0 with
    | some (PRes.v v, cs1) =>
      (match skipWs cs1 with
      | c :: cs2 =>
        if c = ',' then
          match parseStep fuel PMode.items cs2 with
          | some (PRes.elems es, r) => some (PRes.elems (v :: es), r)
          | _ => none
        else if c = ']' then some (PRes.elems [v], cs2)
        else none
      | [] => none)
    | _ => none

/-- Embedding of Python `json.loads`: parse one JSON value and require
that only whitespace remains. -/
def json_loads (s : String) : Option JValue :=
  match parseStep (4 * s.length + 16) PMode.val s.data with
  | some (PRes.v v, rest) => if skipWs rest = [] then some v else none
  | _ => none

example : json_loads "\x7b\x7d" = some (JValue.obj []) := rfl

example : json_loads "42" = some (JValue.num "42") := rfl

example : json_loads "  -3.5e+2 " = some (JValue.num "-3.5e+2") := rfl

example : json_loads "\x7b\"a\": 1,\x7d" = none := rfl

example : json_loads "\x7b\"a\": [1, true, null, \"x\\n\"]\x7d" =
    some (JValue.obj [("a", JValue.arr
      [JValue.num "1", JValue.bool true, JValue.null, JValue.str "x\n"])]) := rfl

example : json_loads "\x7ba: 1\x7d" = none := rfl

example : json_loads "" = none := rfl

example : json_loads "01" = none := rfl

/-! ## Prompt construction

Python `repr` of a list of strings, as produced by interpolating
`placeholders` (a `list` of `str`) into an f-string. -/

def pyReprCharEsc (q c : Char) : List Char :=
  if c = '\\' then ['\\', '\\']
  else if c = q then ['\\', q]
  else if c = '\n' then ['\\', 'n']
  else if c = '\r' then ['\\', 'r']
  else if c = '\t' then ['\\', 't']
  else [c]

/-- Python `repr` of one string: quote with `'` unless the string
contains `'` but no `"`, escaping as Python does. -/
def pyReprStr (s : String) : String :=
  let q : Char := if s.data.contains '\'' && !s.data.contains '"' then '"' else '\''
  ⟨q :: ((s.data.map (pyReprCharEsc q)).flatten ++ [q])⟩

/-- Python `repr`/`str` of a list of strings, e.g. `['a', 'b']`. -/
def pyReprStrList (l : List String) : String :=
  "[" ++ String.intercalate ", " (l.map pyReprStr) ++ "]"

/-- The flask instruction text before the interpolated placeholder list
(src/flask_app.py lines 306-309, trailing spaces included). -/
def flaskSystemPromptHead : String :=
  "You are an expert insurance claims analyst. \nGiven the raw text extracted from photo-inspection reports, return a valid JSON object \nwhose keys exactly match this list of template variables:\n"

/-- The flask instruction text after the interpolated placeholder list
(src/flask_app.py lines 309-312). -/
def flaskSystemPromptTail : String :=
  "\n\nFor any missing value, return an empty string. Ensure the JSON is valid and properly formatted.\nOnly return the JSON object, no additional text or explanation."

/-- Embedding of the flask `system_prompt` f-string. -/
def flaskSystemPrompt (placeholders : List String) : String :=
  flaskSystemPromptHead ++ pyReprStrList placeholders ++ flaskSystemPromptTail

/-- Embedding of the flask `full_prompt` (src/flask_app.py line 314). -/
def buildFlaskPrompt (placeholders : List String) (extracted_text : String) : String :=
  flaskSystemPrompt placeholders ++ "\n\nREPORT TEXT:\n" ++ extracted_text

/-- The streamlit instruction text before the interpolated placeholder
list (src/streamlit_app.py lines 63-66, adjacent literals concatenated). -/
def streamlitSysPromptHead : String :=
  "You are an expert insurance claims analyst. Given the raw text from photo-inspection reports, return a valid JSON object whose keys exactly match this list of template variables:\n"

/-- The streamlit instruction text after the interpolated placeholder
list (src/streamlit_app.py lines 67-68). -/
def streamlitSysPromptTail : String :=
  "\n\nFor any missing value, return an empty string."

/-- Embedding of the streamlit `sys_prompt`. -/
def streamlitSysPrompt (placeholders : List String) : String :=
  streamlitSysPromptHead ++ pyReprStrList placeholders ++ streamlitSysPromptTail

/-- Embedding of the argument of `call_llm` (src/streamlit_app.py
line 70): `sys_prompt + "\n\nREPORT TEXT:\n" + raw_txt`. -/
def buildStreamlitPrompt (placeholders : List String) (raw_txt : String) : String :=
  streamlitSysPrompt placeholders ++ "\n\nREPORT TEXT:\n" ++ raw_txt

/-! ## Oracle model of docxtpl and of the LLM round trip -/

inductive RenderOutcome where
  | fail (msg : String)
  | ok (data : List Nat)

/-- Behaviour of `DocxTemplate` on the template part's bytes: loading
either raises, or yields the discovered placeholder list together with
the render/save behaviour as a function of the substitution context. -/
inductive TemplateBehavior where
  | loadFail (msg : String)
  | loaded (placeholders : List String) (render : JValue → RenderOutcome)

structure TemplatePart where
  filename : String
  tpl : TemplateBehavior

structure ReportPart where
  filename : String
  doc : DocOutcome

inductive LLMOutcome where
  | fail (msg : String)
  | ok (text : String)

/-- Externally visible steps of one pipeline run, in order: reading the
template bytes into `DocxTemplate`, extracting the report text, the LLM
round trip, parsing its raw response, and rendering the template. -/
inductive Event where
  | templateLoad
  | extraction
  | llmCall (prompt : String)
  | jsonParse (raw : String)
  | render (context : JValue)

def isLLMCall : Event → Bool
  | Event.llmCall _ => true
  | _ => false

def isRender : Event → Bool
  | Event.render _ => true
  | _ => false

/-- A flask response: either `jsonify({'error': msg}), status` or a
`send_file` attachment download. -/
inductive FlaskResponse where
  | json (status : Nat) (error : String)
  | file (data : List Nat) (download_name : String) (mimetype : String)
deriving DecidableEq

/-- How a streamlit run ends: an uncaught exception, `st.error` plus
`st.stop`, or a success with a `st.download_button`. -/
inductive StreamlitResult where
  | exn (msg : String)
  | errorHalt (msg : String)
  | download (data : List Nat) (file_name : String) (mime : String)
deriving DecidableEq

def docxMime : String :=
  "application/vnd.openxmlformats-officedocument.wordprocessingml.document"

/-- Whether Python `len()` applies to the parsed JSON value: dict,
list and str have a length; int, float, bool and None raise
TypeError. -/
def hasLen : JValue → Bool
  | JValue.obj _ => true
  | JValue.arr _ => true
  | JValue.str _ => true
  | _ => false

/-- Python type name of a parsed JSON value as `json.loads` produces
it: objects are dicts, arrays lists; a number is an int when its
lexeme is an integer literal and a float otherwise (fraction,
exponent, Infinity, NaN). -/
def pyTypeName : JValue → String
  | JValue.null => "NoneType"
  | JValue.bool _ => "bool"
  | JValue.str _ => "str"
  | JValue.arr _ => "list"
  | JValue.obj _ => "dict"
  | JValue.num lex =>
      if lex.data.any (fun c => c = '.' || c = 'e' || c = 'E' || c = 'I' || c = 'N')
      then "float" else "int"

/-- The TypeError message raised by the eager `len(context)` inside
the f-string at src/flask_app.py line 322 when the parsed value has no
length. -/
def pyLenError (v : JValue) : String :=
  "object of type '" ++ pyTypeName v ++ "' has no len()"

/-! ## The two front ends -/

/-- Embedding of the `POST /process` handler `process_documents`
(src/flask_app.py lines 242-353).  The result is the ordered list of
externally visible pipeline events together with the HTTP response.
`llm` is the behaviour of the OpenRouter round trip on each prompt;
`api_key_raw` is the raw form field (the code strips it); `timestamp`
is `datetime.now().strftime("%Y%m%d_%H%M%S")` at delivery time.
After a successful parse, the success-logging f-string at line 322
eagerly evaluates `len(context)`; for a parsed value with no length
this raises TypeError, which the `except json.JSONDecodeError` clause
does not catch, so the run falls to the outer handler and rendering is
never reached. -/
def process_documents (llm : String → LLMOutcome) (template? : Option TemplatePart)
    (reports? : Option (List ReportPart)) (api_key_raw : String) (timestamp : String) :
    List Event × FlaskResponse :=
  match template? with
  | none => ([], FlaskResponse.json 400 "No template file provided")
  | some template_file =>
    match reports? with
    | none => ([], FlaskResponse.json 400 "No report files provided")
    | some report_files =>
      if template_file.filename = "" then
        ([], FlaskResponse.json 400 "No template file selected")
      else if report_files.all (fun f => f.filename = "") then
        ([], FlaskResponse.json 400 "No report files selected")
      else if pyStrip api_key_raw = "" then
        ([], FlaskResponse.json 400 "API key is required")
      else if !(allowed_file template_file.filename ["docx"]) then
        ([], FlaskResponse.json 400 "Template must be a .docx file")
      else if !(report_files.all (fun f => allowed_file f.filename ["pdf"])) then
        ([], FlaskResponse.json 400 "All report files must be .pdf files")
      else
        match template_file.tpl with
        | TemplateBehavior.loadFail msg =>
            ([Event.templateLoad], FlaskResponse.json 500 ("Processing failed: " ++ msg))
        | TemplateBehavior.loaded placeholders render =>
          let extracted_text := extract_text_from_pdfs (report_files.map (fun f => f.doc))
          if pyStrip extracted_text = "" then
            ([Event.templateLoad, Event.extraction],
             FlaskResponse.json 400 "No text could be extracted from the PDF files")
          else
            let full_prompt := buildFlaskPrompt placeholders extracted_text
            match llm full_prompt with
            | LLMOutcome.fail msg =>
                ([Event.templateLoad, Event.extraction, Event.llmCall full_prompt],
                 FlaskResponse.json 500 ("Processing failed: " ++ msg))
            | LLMOutcome.ok llm_response =>
              match json_loads llm_response with
              | none =>
                  ([Event.templateLoad, Event.extraction, Event.llmCall full_prompt,
                    Event.jsonParse llm_response],
                   FlaskResponse.json 500 "AI response was not valid JSON. Please try again.")
              | some context =>
                if hasLen context then
                  match render context with
                  | RenderOutcome.fail msg =>
                      ([Event.templateLoad, Event.extraction, Event.llmCall full_prompt,
                        Event.jsonParse llm_response, Event.render context],
                       FlaskResponse.json 500 ("Processing failed: " ++ msg))
                  | RenderOutcome.ok data =>
                      ([Event.templateLoad, Event.extraction, Event.llmCall full_prompt,
                        Event.jsonParse llm_response, Event.render context],
                       FlaskResponse.file data
                         ("filled_insurance_template_" ++ timestamp ++ ".docx") docxMime)
                else
                  ([Event.templateLoad, Event.extraction, Event.llmCall full_prompt,
                    Event.jsonParse llm_response],
                   FlaskResponse.json 500 ("Processing failed: " ++ pyLenError context))

/-- Embedding of the flask `413` error handler `too_large`
(src/flask_app.py lines 377-380). -/
def too_large : FlaskResponse :=
  FlaskResponse.json 413 "File too large. Maximum size is 16MB."

/-- Embedding of the streamlit `run_btn` block (src/streamlit_app.py
lines 52-91).  `now` is the wall-clock time during the run; the code
never reads the clock, and the parameter witnesses that fact. -/
def streamlit_run (llm : String → LLMOutcome) (tpl : TemplateBehavior)
    (docs : List DocOutcome) (now : String) : List Event × StreamlitResult :=
  match tpl with
  | TemplateBehavior.loadFail msg => ([Event.templateLoad], StreamlitResult.exn msg)
  | TemplateBehavior.loaded placeholders render =>
    match pdfs_to_text docs with
    | none =>
        ([Event.templateLoad, Event.extraction],
         StreamlitResult.exn "pdfplumber raised during extraction")
    | some raw_txt =>
      let prompt := buildStreamlitPrompt placeholders raw_txt
      match llm prompt with
      | LLMOutcome.fail msg =>
          ([Event.templateLoad, Event.extraction, Event.llmCall prompt],
           StreamlitResult.exn msg)
      | LLMOutcome.ok llm_output =>
        match json_loads llm_output with
        | none =>
            ([Event.templateLoad, Event.extraction, Event.llmCall prompt,
              Event.jsonParse llm_output],
             StreamlitResult.errorHalt "LLM response was not valid JSON. Please retry.")
        | some context =>
          match render context with
          | RenderOutcome.fail msg =>
              ([Event.templateLoad, Event.extraction, Event.llmCall prompt,
                Event.jsonParse llm_output, Event.render context],
               StreamlitResult.exn msg)
          | RenderOutcome.ok data =>
              ([Event.templateLoad, Event.extraction, Event.llmCall prompt,
                Event.jsonParse llm_output, Event.render context],
               StreamlitResult.download data "filled_report.docx" docxMime)

/-! ## Field discovery -/

/-- Keep the first occurrence of each string, dropping later
duplicates; `seen` records the strings already emitted. -/
def dedupFirstAux : List String → List String → List String
  | _, [] => []
  | seen, x :: xs =>
      if x ∈ seen then dedupFirstAux seen xs
      else x :: dedupFirstAux (x :: seen) xs

def dedupFirst (l : List String) : List String := dedupFirstAux [] l

/-- Scan a template's markup for substitution markers, collecting the
stripped identifier between each pair of double braces. -/
def scanVarsF : Nat → List Char → List String
  | 0, _ => []
  | _ + 1, [] => []
  | _ + 1, [_] => []
  | fuel + 1, c :: c2 :: rest =>
    if c = lcurl && c2 = lcurl then
      let name := rest.takeWhile (fun d => d ≠ rcurl)
      let rest1 := rest.dropWhile (fun d => d ≠ rcurl)
      match rest1 with
      | d1 :: d2 :: rest2 =>
        if d1 = rcurl && d2 = rcurl then pyStrip ⟨name⟩ :: scanVarsF fuel rest2
        else scanVarsF fuel (d2 :: rest2)
      | _ => []
    else scanVarsF fuel (c2 :: rest)

/-- Modelled from the spec: the Field Discoverer
(`DocxTemplate.get_undeclared_template_variables`, docxtpl/jinja2
library code that is not under src/) returns "the ordered set of
distinct placeholder identifiers syntactically referenced by the
template's substitution markup", deterministically for a given
template (spec.md section 4.3). -/
def get_undeclared_template_variables (tpl : String) : List String :=
  dedupFirst (scanVarsF (tpl.length + 1) tpl.data)

/-! ## Helper lemmas -/

theorem flaskPageLoop_eq (ps : List PageOutcome) (acc : List String) :
    flaskPageLoop ps acc = acc ++ specPageTexts ps := by
  induction ps generalizing acc with
  | nil => simp [flaskPageLoop, specPageTexts]
  | cons p rest ih =>
    cases p with
    | fail => simp [flaskPageLoop, specPageTexts, List.filterMap_cons, ih]
    | text t =>
      cases t with
      | none => simp [flaskPageLoop, specPageTexts, List.filterMap_cons, ih]
      | some s =>
        by_cases hs : s = "" <;>
          simp [flaskPageLoop, specPageTexts, List.filterMap_cons, hs, ih]

theorem flaskDocLoop_eq (docs : List DocOutcome) (acc : List String) :
    flaskDocLoop docs acc = acc ++ specChunks docs := by
  induction docs generalizing acc with
  | nil => simp [flaskDocLoop, specChunks]
  | cons d rest ih =>
    cases d with
    | openFail => simp [flaskDocLoop, specChunks, ih]
    | pages ps => simp [flaskDocLoop, specChunks, ih, flaskPageLoop_eq]

/-- The strings already emitted are never emitted again by the
deduplicating scan. -/
theorem dedupFirstAux_not_mem :
    ∀ (xs seen : List String) (y : String), y ∈ dedupFirstAux seen xs → y ∉ seen := by
  intro xs
  induction xs with
  | nil => intro seen y h; simp [dedupFirstAux] at h
  | cons x rest ih =>
    intro seen y h
    rw [dedupFirstAux] at h
    by_cases hx : x ∈ seen
    · rw [if_pos hx] at h
      exact ih seen y h
    · rw [if_neg hx] at h
      rcases List.mem_cons.mp h with h1 | h2
      · subst h1; exact hx
      · have := ih (x :: seen) y h2
        exact fun hy => this (List.mem_cons_of_mem _ hy)

theorem dedupFirstAux_nodup : ∀ (xs seen : List String), (dedupFirstAux seen xs).Nodup := by
  intro xs
  induction xs with
  | nil => intro seen; simp [dedupFirstAux]
  | cons x rest ih =>
    intro seen
    rw [dedupFirstAux]
    by_cases hx : x ∈ seen
    · rw [if_pos hx]; exact ih seen
    · rw [if_neg hx]
      refine List.nodup_cons.mpr ⟨?_, ih (x :: seen)⟩
      intro hmem
      exact (dedupFirstAux_not_mem rest (x :: seen) x hmem) (List.mem_cons_self x seen)

/-- The string `small` occurs contiguously inside `big`. -/
def strContains (big small : String) : Prop := ∃ l r, big = l ++ (small ++ r)

theorem strContains_intro (l r : String) {big small : String}
    (h : big = l ++ (small ++ r)) : strContains big small := ⟨l, r, h⟩

/-! ## Claims -/

/-- C3 (amended, flask part): for every ordered sequence of report
documents, `extract_text_from_pdfs` returns the newline-joined
concatenation of exactly the successfully extracted pages' text, in
document order then page order; a failing or text-less page contributes
nothing, and a document that fails to open contributes nothing while
extraction continues with the next document. -/
theorem C3_flask_extractor_spec (docs : List DocOutcome) :
    extract_text_from_pdfs docs = String.intercalate "\n" (specChunks docs) := by
  unfold extract_text_from_pdfs
  rw [flaskDocLoop_eq]
  rfl

/-- C3 counterexample: the streamlit extractor `pdfs_to_text` violates
the claim at a concrete input.  A document with pages yielding "a", no
text, and "b" produces "a\n\nb" — the empty page contributes a
separator — while the claim demands the newline-join of exactly the
successful pages, "a\nb".  Moreover a document that fails to open
aborts the whole extraction instead of contributing nothing. -/
theorem C3_streamlit_counterexample :
    pdfs_to_text [DocOutcome.pages
        [PageOutcome.text (some "a"), PageOutcome.text none, PageOutcome.text (some "b")]]
      = some "a\n\nb" ∧
    String.intercalate "\n" (specChunks [DocOutcome.pages
        [PageOutcome.text (some "a"), PageOutcome.text none, PageOutcome.text (some "b")]])
      = "a\nb" ∧
    ("a\n\nb" : String) ≠ "a\nb" ∧
    pdfs_to_text [DocOutcome.openFail, DocOutcome.pages [PageOutcome.text (some "a")]]
      = none :=
  ⟨rfl, rfl, by decide, rfl⟩

/-- C8: field discovery is idempotent and deterministic — running the
placeholder extraction twice on the same template payload yields the
identical ordered placeholder set, whose names are distinct. -/
theorem C8_discovery_idempotent (tpl : String) :
    get_undeclared_template_variables tpl = get_undeclared_template_variables tpl ∧
    (get_undeclared_template_variables tpl).Nodup :=
  ⟨rfl, dedupFirstAux_nodup _ _⟩

/-- C10: `allowed_file` accepts a filename for the allowed set
`[ext]` iff the filename contains a dot and the lowercased part after
the last dot equals `ext`; hence the check is case-insensitive, a
dotless filename is rejected, and only the last extension counts. -/
theorem C10_allowed_file :
    (∀ (f ext : String), allowed_file f [ext] = true ↔
      (f.data.contains '.' = true ∧ pyLower (afterLastDot f) = ext)) ∧
    allowed_file "REPORT.PDF" ["pdf"] = true ∧
    allowed_file "noext" ["pdf"] = false ∧
    allowed_file "a.pdf.docx" ["docx"] = true := by
  refine ⟨?_, by decide, by decide, by decide⟩
  intro f ext
  unfold allowed_file
  constructor
  · intro h
    have h' := Bool.and_eq_true_iff.mp h
    refine ⟨h'.1, ?_⟩
    have := h'.2
    simp only [List.contains, List.elem_cons, List.elem_nil] at this
    cases heq : (pyLower (afterLastDot f) == ext) with
    | true => exact eq_of_beq heq
    | false => rw [heq] at this; simp at this
  · intro ⟨h1, h2⟩
    rw [h1, h2]
    simp [List.contains, List.elem_cons]

theorem flaskTail_split :
    flaskSystemPromptTail =
      "\n\n" ++ ("For any missing value, return an empty string." ++
        " Ensure the JSON is valid and properly formatted.\nOnly return the JSON object, no additional text or explanation.") := rfl

theorem streamlitTail_split :
    streamlitSysPromptTail =
      "\n\n" ++ "For any missing value, return an empty string." := rfl

/-- C9: the Prompt Builder of each front end is a pure function of the
placeholder list and the extracted text: the produced prompt equals
that front end's fixed instruction text with the literal Python
rendering of the placeholder list embedded, it states the
return-empty-string-for-missing-values policy, and it is concatenated
(via the fixed "REPORT TEXT" separator) with the extracted text. -/
theorem C9_prompt_builder (P : List String) (T : String) :
    buildFlaskPrompt P T =
      flaskSystemPromptHead ++ pyReprStrList P ++ flaskSystemPromptTail
        ++ "\n\nREPORT TEXT:\n" ++ T ∧
    strContains (buildFlaskPrompt P T) (pyReprStrList P) ∧
    strContains (buildFlaskPrompt P T) "For any missing value, return an empty string." ∧
    buildStreamlitPrompt P T =
      streamlitSysPromptHead ++ pyReprStrList P ++ streamlitSysPromptTail
        ++ "\n\nREPORT TEXT:\n" ++ T ∧
    strContains (buildStreamlitPrompt P T) (pyReprStrList P) ∧
    strContains (buildStreamlitPrompt P T) "For any missing value, return an empty string." := by
  refine ⟨rfl, ?_, ?_, rfl, ?_, ?_⟩
  · refine strContains_intro flaskSystemPromptHead
      (flaskSystemPromptTail ++ ("\n\nREPORT TEXT:\n" ++ T)) ?_
    simp only [buildFlaskPrompt, flaskSystemPrompt, String.append_assoc]
  · refine strContains_intro (flaskSystemPromptHead ++ pyReprStrList P ++ "\n\n")
      (" Ensure the JSON is valid and properly formatted.\nOnly return the JSON object, no additional text or explanation."
        ++ ("\n\nREPORT TEXT:\n" ++ T)) ?_
    rw [buildFlaskPrompt, flaskSystemPrompt, flaskTail_split]
    simp only [String.append_assoc]
  · refine strContains_intro streamlitSysPromptHead
      (streamlitSysPromptTail ++ ("\n\nREPORT TEXT:\n" ++ T)) ?_
    simp only [buildStreamlitPrompt, streamlitSysPrompt, String.append_assoc]
  · refine strContains_intro (streamlitSysPromptHead ++ pyReprStrList P ++ "\n\n")
      ("\n\nREPORT TEXT:\n" ++ T) ?_
    rw [buildStreamlitPrompt, streamlitSysPrompt, streamlitTail_split]
    simp only [String.append_assoc]

/-! ## Concrete fixtures for witnesses and counterexamples -/

/-- A well-formed template part: one placeholder, rendering succeeds. -/
def tplOK : TemplatePart :=
  ⟨"t.docx", TemplateBehavior.loaded ["x"] (fun _ => RenderOutcome.ok [7])⟩

/-- A well-formed report part whose single page yields the text
"hello". -/
def repOK : ReportPart := ⟨"r.pdf", DocOutcome.pages [PageOutcome.text (some "hello")]⟩

/-- A report part whose single page raises during extraction, so the
batch yields no text at all. -/
def repNoText : ReportPart := ⟨"r.pdf", DocOutcome.pages [PageOutcome.fail]⟩

/-- An LLM stub answering the same text on every prompt. -/
def llmConst (s : String) : String → LLMOutcome := fun _ => LLMOutcome.ok s

/-- C5: for every request whose template part has an extension outside
the allowed set, the endpoint fails with a 400 client error decided
from the filename alone: the event trace is empty, so the template's
content is never read and no downstream stage (extraction, LLM call,
parse, render) is invoked. -/
theorem C5_doc_template_rejected (llm : String → LLMOutcome) (t : TemplatePart)
    (reports? : Option (List ReportPart)) (api_key_raw timestamp : String)
    (h : allowed_file t.filename ["docx"] = false) :
    ∃ m, process_documents llm (some t) reports? api_key_raw timestamp =
      ([], FlaskResponse.json 400 m) := by
  cases reports? with
  | none => exact ⟨"No report files provided", rfl⟩
  | some rs =>
    dsimp only [process_documents]
    split
    · exact ⟨_, rfl⟩
    · split
      · exact ⟨_, rfl⟩
      · split
        · exact ⟨_, rfl⟩
        · split
          · exact ⟨_, rfl⟩
          · rename_i hcond
            rw [h] at hcond
            simp at hcond

/-- Witness for C5 at a concrete `.doc` request. -/
theorem C5_doc_template_rejected_witness :
    ∃ m, process_documents (llmConst "ok") (some ⟨"t.doc", TemplateBehavior.loadFail "unused"⟩)
      (some [repOK]) "k" "ts" = ([], FlaskResponse.json 400 m) :=
  C5_doc_template_rejected (llmConst "ok") ⟨"t.doc", TemplateBehavior.loadFail "unused"⟩
    (some [repOK]) "k" "ts" (by decide)

/-- C1 (amended, flask part): when the concatenated extracted report
text is empty or whitespace-only, the flask pipeline never calls the
LLM; if it got as far as extraction it fails with the user-facing
no-text-extracted 400 error. -/
theorem C1_flask_no_llm_on_empty_text (llm : String → LLMOutcome)
    (template? : Option TemplatePart) (reports? : Option (List ReportPart))
    (api_key_raw timestamp : String)
    (h : pyStrip (extract_text_from_pdfs ((reports?.getD []).map (fun f => f.doc))) = "") :
    (process_documents llm template? reports? api_key_raw timestamp).1.any isLLMCall = false ∧
    (Event.extraction ∈ (process_documents llm template? reports? api_key_raw timestamp).1 →
      (process_documents llm template? reports? api_key_raw timestamp).2 =
        FlaskResponse.json 400 "No text could be extracted from the PDF files") := by
  cases template? with
  | none => exact ⟨rfl, by intro hm; simp [process_documents] at hm⟩
  | some t =>
    cases reports? with
    | none => exact ⟨rfl, by intro hm; simp [process_documents] at hm⟩
    | some rs =>
      rw [Option.getD_some] at h
      dsimp only [process_documents]
      split
      · simp [isLLMCall]
      · split
        · simp [isLLMCall]
        · split
          · simp [isLLMCall]
          · split
            · simp [isLLMCall]
            · split
              · simp [isLLMCall]
              · split
                · simp [isLLMCall]
                · exact ⟨rfl, fun _ => rfl⟩

/-- Witness for C1 at a concrete request whose reports yield no text. -/
theorem C1_flask_no_llm_on_empty_text_witness :
    pyStrip (extract_text_from_pdfs
        (((some [repNoText] : Option (List ReportPart)).getD []).map (fun f => f.doc))) = "" ∧
    ((process_documents (llmConst "ok") (some tplOK) (some [repNoText]) "k" "ts").1.any
        isLLMCall = false ∧
      (Event.extraction ∈
          (process_documents (llmConst "ok") (some tplOK) (some [repNoText]) "k" "ts").1 →
        (process_documents (llmConst "ok") (some tplOK) (some [repNoText]) "k" "ts").2 =
          FlaskResponse.json 400 "No text could be extracted from the PDF files")) :=
  ⟨rfl, C1_flask_no_llm_on_empty_text (llmConst "ok") (some tplOK) (some [repNoText]) "k" "ts" rfl⟩

/-- A document whose single page returns no text at all. -/
def docEmptyPage : DocOutcome := DocOutcome.pages [PageOutcome.text none]

/-- C1 counterexample: in the streamlit front end, a run whose
concatenated extracted text is empty still sends a request to the
completion endpoint — the trace contains an LLM call, no
no-text-extracted failure happens. -/
theorem C1_streamlit_counterexample :
    pdfs_to_text [docEmptyPage] = some "" ∧
    pyStrip "" = "" ∧
    (streamlit_run (llmConst "ok") tplOK.tpl [docEmptyPage] "ts").1.any isLLMCall = true :=
  ⟨rfl, rfl, rfl⟩

theorem flaskParseGate (llm : String → LLMOutcome) (template? : Option TemplatePart)
    (reports? : Option (List ReportPart)) (api_key_raw timestamp raw : String) :
    Event.jsonParse raw ∈ (process_documents llm template? reports? api_key_raw timestamp).1 →
      ((json_loads raw = none →
        (process_documents llm template? reports? api_key_raw timestamp).2 =
          FlaskResponse.json 500 "AI response was not valid JSON. Please try again." ∧
        (process_documents llm template? reports? api_key_raw timestamp).1.any
          isRender = false) ∧
      (∀ v, json_loads raw = some v →
        ((hasLen v = true →
          Event.render v ∈ (process_documents llm template? reports? api_key_raw timestamp).1) ∧
         (hasLen v = false →
          (process_documents llm template? reports? api_key_raw timestamp).2 =
            FlaskResponse.json 500 ("Processing failed: " ++ pyLenError v) ∧
          (process_documents llm template? reports? api_key_raw timestamp).1.any
            isRender = false)))) := by
  cases template? with
  | none => intro hmem; simp [process_documents] at hmem
  | some t =>
    cases reports? with
    | none => intro hmem; simp [process_documents] at hmem
    | some rs =>
      dsimp only [process_documents]
      split
      · intro hmem; simp at hmem
      · split
        · intro hmem; simp at hmem
        · split
          · intro hmem; simp at hmem
          · split
            · intro hmem; simp at hmem
            · split
              · intro hmem; simp at hmem
              · split
                · intro hmem; simp at hmem
                · split
                  · intro hmem; simp at hmem
                  · split
                    · intro hmem; simp at hmem
                    · rename_i llm_response hllm
                      split
                      · rename_i hnone
                        intro hmem
                        simp at hmem
                        subst hmem
                        refine ⟨fun _ => ⟨rfl, rfl⟩, fun v hv => ?_⟩
                        rw [hnone] at hv
                        cases hv
                      · rename_i context hsome
                        split
                        · rename_i hlen
                          split
                          · intro hmem
                            simp at hmem
                            subst hmem
                            refine ⟨fun hn => ?_, fun v hv => ?_⟩
                            · rw [hsome] at hn; cases hn
                            · rw [hsome] at hv
                              injection hv with hv
                              subst hv
                              refine ⟨fun _ => by simp, fun hfalse => ?_⟩
                              rw [hfalse] at hlen
                              exact Bool.noConfusion hlen
                          · intro hmem
                            simp at hmem
                            subst hmem
                            refine ⟨fun hn => ?_, fun v hv => ?_⟩
                            · rw [hsome] at hn; cases hn
                            · rw [hsome] at hv
                              injection hv with hv
                              subst hv
                              refine ⟨fun _ => by simp, fun hfalse => ?_⟩
                              rw [hfalse] at hlen
                              exact Bool.noConfusion hlen
                        · rename_i hlennot
                          intro hmem
                          simp at hmem
                          subst hmem
                          refine ⟨fun hn => ?_, fun v hv => ?_⟩
                          · rw [hsome] at hn; cases hn
                          · rw [hsome] at hv
                            injection hv with hv
                            subst hv
                            exact ⟨fun htrue => absurd htrue hlennot, fun _ => ⟨rfl, rfl⟩⟩

theorem streamlitParseGate (llm : String → LLMOutcome) (tpl : TemplateBehavior)
    (docs : List DocOutcome) (now raw : String) :
    Event.jsonParse raw ∈ (streamlit_run llm tpl docs now).1 →
      ((json_loads raw = none →
        (streamlit_run llm tpl docs now).2 =
          StreamlitResult.errorHalt "LLM response was not valid JSON. Please retry." ∧
        (streamlit_run llm tpl docs now).1.any isRender = false) ∧
      (∀ v, json_loads raw = some v →
        Event.render v ∈ (streamlit_run llm tpl docs now).1)) := by
  dsimp only [streamlit_run]
  split
  · intro hmem; simp at hmem
  · split
    · intro hmem; simp at hmem
    · split
      · intro hmem; simp at hmem
      · rename_i llm_output hllm
        split
        · rename_i hnone
          intro hmem
          simp at hmem
          subst hmem
          refine ⟨fun _ => ⟨rfl, rfl⟩, fun v hv => ?_⟩
          rw [hnone] at hv
          cases hv
        · rename_i context hsome
          split
          · intro hmem
            simp at hmem
            subst hmem
            refine ⟨fun hn => ?_, fun v hv => ?_⟩
            · rw [hsome] at hn; cases hn
            · rw [hsome] at hv
              injection hv with hv
              subst hv
              simp
          · intro hmem
            simp at hmem
            subst hmem
            refine ⟨fun hn => ?_, fun v hv => ?_⟩
            · rw [hsome] at hn; cases hn
            · rw [hsome] at hv
              injection hv with hv
              subst hv
              simp

/-- C2 (amended): in both front ends, the Response Parser applies
`json.loads` to the raw LLM text.  If the text is not syntactically
valid JSON, the pipeline fails with the user-facing format error and
rendering is never reached.  If it is any syntactically valid JSON
value — an object or not — then: in the flask front end the parsed
value is handed to the renderer verbatim when it has a Python length
(object, array, or string), while a parsed number, boolean or null
makes the eager `len(context)` logging call raise TypeError, so the
run fails with the generic processing-failed 500 and rendering is
never reached; in the streamlit front end every parsed value is handed
to the renderer verbatim.  No repair, partial extraction, or retry
anywhere. -/
theorem C2_parse_gate :
    (∀ (llm : String → LLMOutcome) (template? : Option TemplatePart)
        (reports? : Option (List ReportPart)) (api_key_raw timestamp raw : String),
      Event.jsonParse raw ∈ (process_documents llm template? reports? api_key_raw timestamp).1 →
        ((json_loads raw = none →
          (process_documents llm template? reports? api_key_raw timestamp).2 =
            FlaskResponse.json 500 "AI response was not valid JSON. Please try again." ∧
          (process_documents llm template? reports? api_key_raw timestamp).1.any
            isRender = false) ∧
        (∀ v, json_loads raw = some v →
          ((hasLen v = true →
            Event.render v ∈
              (process_documents llm template? reports? api_key_raw timestamp).1) ∧
           (hasLen v = false →
            (process_documents llm template? reports? api_key_raw timestamp).2 =
              FlaskResponse.json 500 ("Processing failed: " ++ pyLenError v) ∧
            (process_documents llm template? reports? api_key_raw timestamp).1.any
              isRender = false))))) ∧
    (∀ (llm : String → LLMOutcome) (tpl : TemplateBehavior) (docs : List DocOutcome)
        (now raw : String),
      Event.jsonParse raw ∈ (streamlit_run llm tpl docs now).1 →
        ((json_loads raw = none →
          (streamlit_run llm tpl docs now).2 =
            StreamlitResult.errorHalt "LLM response was not valid JSON. Please retry." ∧
          (streamlit_run llm tpl docs now).1.any isRender = false) ∧
        (∀ v, json_loads raw = some v →
          Event.render v ∈ (streamlit_run llm tpl docs now).1))) :=
  ⟨flaskParseGate, streamlitParseGate⟩

/-- Witness for C2: on a concrete run whose LLM answers an empty JSON
object, the parsed object is handed verbatim to the renderer. -/
theorem C2_parse_gate_witness :
    Event.render (JValue.obj []) ∈
      (process_documents (llmConst "\x7b\x7d") (some tplOK) (some [repOK]) "k" "ts").1 := by
  have hmem : Event.jsonParse "\x7b\x7d" ∈
      (process_documents (llmConst "\x7b\x7d") (some tplOK) (some [repOK]) "k" "ts").1 :=
    List.mem_cons_of_mem _ (List.mem_cons_of_mem _ (List.mem_cons_of_mem _
      (List.mem_cons_self _ _)))
  exact ((C2_parse_gate.1 (llmConst "\x7b\x7d") (some tplOK) (some [repOK]) "k" "ts"
    "\x7b\x7d" hmem).2 (JValue.obj []) rfl).1 rfl

/-- C2 counterexample: two concrete raw responses that are valid JSON
but not JSON objects refute the claim.  The string response yields a
parsed value that IS handed to the renderer (rendering reached, no
response-format error), and the number response fails with the generic
processing-failed 500 from the eager `len()` call, not with the
response-format error the claim demands. -/
theorem C2_counterexample :
    json_loads "\"x\"" = some (JValue.str "x") ∧
    isJObj (JValue.str "x") = false ∧
    (process_documents (llmConst "\"x\"") (some tplOK) (some [repOK]) "k" "ts").1.any
      isRender = true ∧
    (process_documents (llmConst "\"x\"") (some tplOK) (some [repOK]) "k" "ts").2 ≠
      FlaskResponse.json 500 "AI response was not valid JSON. Please try again." ∧
    json_loads "42" = some (JValue.num "42") ∧
    isJObj (JValue.num "42") = false ∧
    (process_documents (llmConst "42") (some tplOK) (some [repOK]) "k" "ts").2 =
      FlaskResponse.json 500 "Processing failed: object of type 'int' has no len()" ∧
    (process_documents (llmConst "42") (some tplOK) (some [repOK]) "k" "ts").1.any
      isRender = false :=
  ⟨rfl, rfl, rfl, by decide, rfl, rfl, rfl, rfl⟩

/-- The seven 400-level messages produced by request validation in
`process_documents` (missing/empty/wrong-extension parts, missing
credential). -/
def validation400Msgs : List String :=
  ["No template file provided", "No report files provided", "No template file selected",
   "No report files selected", "API key is required", "Template must be a .docx file",
   "All report files must be .pdf files"]

theorem flaskStatusCases (llm : String → LLMOutcome) (template? : Option TemplatePart)
    (reports? : Option (List ReportPart)) (api_key_raw timestamp : String) :
    (∃ d n m, (process_documents llm template? reports? api_key_raw timestamp).2 =
      FlaskResponse.file d n m) ∨
    (∃ m, (process_documents llm template? reports? api_key_raw timestamp).2 =
        FlaskResponse.json 400 m ∧
      (m ∈ validation400Msgs ∨ m = "No text could be extracted from the PDF files")) ∨
    (∃ m, (process_documents llm template? reports? api_key_raw timestamp).2 =
        FlaskResponse.json 500 m ∧
      (m = "AI response was not valid JSON. Please try again." ∨
        ∃ d, m = "Processing failed: " ++ d)) := by
  cases template? with
  | none => exact Or.inr (Or.inl ⟨_, rfl, Or.inl (by decide)⟩)
  | some t =>
    cases reports? with
    | none => exact Or.inr (Or.inl ⟨_, rfl, Or.inl (by decide)⟩)
    | some rs =>
      generalize hres : process_documents llm (some t) (some rs) api_key_raw timestamp = res
      dsimp only [process_documents] at hres
      split at hres
      · subst hres; exact Or.inr (Or.inl ⟨_, rfl, Or.inl (by decide)⟩)
      · split at hres
        · subst hres; exact Or.inr (Or.inl ⟨_, rfl, Or.inl (by decide)⟩)
        · split at hres
          · subst hres; exact Or.inr (Or.inl ⟨_, rfl, Or.inl (by decide)⟩)
          · split at hres
            · subst hres; exact Or.inr (Or.inl ⟨_, rfl, Or.inl (by decide)⟩)
            · split at hres
              · subst hres; exact Or.inr (Or.inl ⟨_, rfl, Or.inl (by decide)⟩)
              · split at hres
                · subst hres; exact Or.inr (Or.inr ⟨_, rfl, Or.inr ⟨_, rfl⟩⟩)
                · split at hres
                  · subst hres; exact Or.inr (Or.inl ⟨_, rfl, Or.inr rfl⟩)
                  · split at hres
                    · subst hres; exact Or.inr (Or.inr ⟨_, rfl, Or.inr ⟨_, rfl⟩⟩)
                    · split at hres
                      · subst hres; exact Or.inr (Or.inr ⟨_, rfl, Or.inl rfl⟩)
                      · split at hres
                        · split at hres
                          · subst hres; exact Or.inr (Or.inr ⟨_, rfl, Or.inr ⟨_, rfl⟩⟩)
                          · subst hres; exact Or.inl ⟨_, _, _, rfl⟩
                        · subst hres; exact Or.inr (Or.inr ⟨_, rfl, Or.inr ⟨_, rfl⟩⟩)

/-- C4 (amended): every response of the process endpoint is either a
success file, a 400 whose message is one of the seven validation
messages or the no-text-extracted message, or a 500 carrying either
the response-format message or a processing-failed message; the
oversized-payload handler returns 413. -/
theorem C4_status_codes :
    (∀ (llm : String → LLMOutcome) (template? : Option TemplatePart)
        (reports? : Option (List ReportPart)) (api_key_raw timestamp : String),
      (∃ d n m, (process_documents llm template? reports? api_key_raw timestamp).2 =
        FlaskResponse.file d n m) ∨
      (∃ m, (process_documents llm template? reports? api_key_raw timestamp).2 =
          FlaskResponse.json 400 m ∧
        (m ∈ validation400Msgs ∨ m = "No text could be extracted from the PDF files")) ∨
      (∃ m, (process_documents llm template? reports? api_key_raw timestamp).2 =
          FlaskResponse.json 500 m ∧
        (m = "AI response was not valid JSON. Please try again." ∨
          ∃ d, m = "Processing failed: " ++ d))) ∧
    too_large = FlaskResponse.json 413 "File too large. Maximum size is 16MB." :=
  ⟨flaskStatusCases, rfl⟩

/-- C4 counterexample: a request that passes all input validation
(parts present, correct extensions, credential given) but whose
reports yield no text is answered with status 400, although this
extraction failure is not one of the validation failures the claim
reserves 400 for. -/
theorem C4_counterexample :
    (process_documents (llmConst "ok") (some tplOK) (some [repNoText]) "k" "ts").2 =
      FlaskResponse.json 400 "No text could be extracted from the PDF files" ∧
    "No text could be extracted from the PDF files" ∉ validation400Msgs ∧
    allowed_file "t.docx" ["docx"] = true ∧
    allowed_file "r.pdf" ["pdf"] = true ∧
    pyStrip "k" ≠ "" :=
  ⟨rfl, by decide, by decide, by decide, by decide⟩

/-- C6 (amended): every post-validation failure other than the
response-format one surfaces with a body equal to the fixed
"Processing failed: " text with the exception detail appended — so the
detail is included in the user-visible response body, not only in the
server-side log. -/
theorem C6_error_detail (llm : String → LLMOutcome) (template? : Option TemplatePart)
    (reports? : Option (List ReportPart)) (api_key_raw timestamp m : String)
    (h : (process_documents llm template? reports? api_key_raw timestamp).2 =
      FlaskResponse.json 500 m)
    (hne : m ≠ "AI response was not valid JSON. Please try again.") :
    ∃ d, m = "Processing failed: " ++ d := by
  cases template? with
  | none => simp [process_documents] at h
  | some t =>
    cases reports? with
    | none => simp [process_documents] at h
    | some rs =>
      dsimp only [process_documents] at h
      split at h
      · simp at h
      · split at h
        · simp at h
        · split at h
          · simp at h
          · split at h
            · simp at h
            · split at h
              · simp at h
              · split at h
                · injection h with _ h2
                  exact ⟨_, h2.symm⟩
                · split at h
                  · simp at h
                  · split at h
                    · injection h with _ h2
                      exact ⟨_, h2.symm⟩
                    · split at h
                      · injection h with _ h2
                        exact absurd h2.symm hne
                      · split at h
                        · split at h
                          · injection h with _ h2
                            exact ⟨_, h2.symm⟩
                          · simp at h
                        · injection h with _ h2
                          exact ⟨_, h2.symm⟩

/-- Witness for C6 at a concrete run whose LLM call raises "boom". -/
theorem C6_error_detail_witness :
    ∃ d, ("Processing failed: boom" : String) = "Processing failed: " ++ d :=
  C6_error_detail (fun _ => LLMOutcome.fail "boom") (some tplOK) (some [repOK]) "k" "ts"
    "Processing failed: boom" rfl (by decide)

/-- C6 counterexample: an LLM failure with detail "boom" is answered
with body "Processing failed: boom" — the exception detail appears in
the response body rather than a generic message with the detail kept
server-side only. -/
theorem C6_counterexample :
    (process_documents (fun _ => LLMOutcome.fail "boom") (some tplOK) (some [repOK])
        "k" "ts").2 = FlaskResponse.json 500 "Processing failed: boom" ∧
    strContains "Processing failed: boom" "boom" :=
  ⟨rfl, ⟨"Processing failed: ", "", by decide⟩⟩

theorem flaskDelivery (llm : String → LLMOutcome) (template? : Option TemplatePart)
    (reports? : Option (List ReportPart)) (api_key_raw timestamp : String)
    (d : List Nat) (n m : String)
    (h : (process_documents llm template? reports? api_key_raw timestamp).2 =
      FlaskResponse.file d n m) :
    n = "filled_insurance_template_" ++ timestamp ++ ".docx" ∧ m = docxMime := by
  cases template? with
  | none => simp [process_documents] at h
  | some t =>
    cases reports? with
    | none => simp [process_documents] at h
    | some rs =>
      dsimp only [process_documents] at h
      split at h
      · simp at h
      · split at h
        · simp at h
        · split at h
          · simp at h
          · split at h
            · simp at h
            · split at h
              · simp at h
              · split at h
                · simp at h
                · split at h
                  · simp at h
                  · split at h
                    · simp at h
                    · split at h
                      · simp at h
                      · split at h
                        · split at h
                          · simp at h
                          · injection h with _ h2 h3
                            exact ⟨h2.symm, h3.symm⟩
                        · simp at h

theorem streamlitDelivery (llm : String → LLMOutcome) (tpl : TemplateBehavior)
    (docs : List DocOutcome) (now : String) (d : List Nat) (n m : String)
    (h : (streamlit_run llm tpl docs now).2 = StreamlitResult.download d n m) :
    n = "filled_report.docx" ∧ m = docxMime := by
  dsimp only [streamlit_run] at h
  split at h
  · simp at h
  · split at h
    · simp at h
    · split at h
      · simp at h
      · split at h
        · simp at h
        · split at h
          · simp at h
          · injection h with _ h2 h3
            exact ⟨h2.symm, h3.symm⟩

/-- C7 (amended): on success the flask endpoint delivers the rendered
document as an attachment named with the fixed prefix plus the run's
timestamp and the OOXML word-processing MIME type; the streamlit front
end uses the same MIME type but the constant filename
"filled_report.docx" with no timestamp. -/
theorem C7_delivery :
    (∀ (llm : String → LLMOutcome) (template? : Option TemplatePart)
        (reports? : Option (List ReportPart)) (api_key_raw timestamp : String)
        (d : List Nat) (n m : String),
      (process_documents llm template? reports? api_key_raw timestamp).2 =
          FlaskResponse.file d n m →
        n = "filled_insurance_template_" ++ timestamp ++ ".docx" ∧ m = docxMime) ∧
    (∀ (llm : String → LLMOutcome) (tpl : TemplateBehavior) (docs : List DocOutcome)
        (now : String) (d : List Nat) (n m : String),
      (streamlit_run llm tpl docs now).2 = StreamlitResult.download d n m →
        n = "filled_report.docx" ∧ m = docxMime) :=
  ⟨flaskDelivery, streamlitDelivery⟩

/-- Witness for C7 at concrete successful runs of both front ends. -/
theorem C7_delivery_witness :
    (("filled_insurance_template_ts.docx" : String) =
        "filled_insurance_template_" ++ "ts" ++ ".docx" ∧ docxMime = docxMime) ∧
    (("filled_report.docx" : String) = "filled_report.docx" ∧ docxMime = docxMime) :=
  ⟨C7_delivery.1 (llmConst "\x7b\x7d") (some tplOK) (some [repOK]) "k" "ts" [7]
      "filled_insurance_template_ts.docx" docxMime rfl,
    C7_delivery.2 (llmConst "\x7b\x7d") tplOK.tpl [repOK.doc] "ts" [7]
      "filled_report.docx" docxMime rfl⟩

/-- C7 counterexample: two successful streamlit runs at different
wall-clock times deliver the same constant filename
"filled_report.docx" — the filename embeds no timestamp, refuting the
claim for that front end. -/
theorem C7_streamlit_counterexample :
    streamlit_run (llmConst "\x7b\x7d") tplOK.tpl [repOK.doc] "20240101_000000" =
      streamlit_run (llmConst "\x7b\x7d") tplOK.tpl [repOK.doc] "20991231_235959" ∧
    (streamlit_run (llmConst "\x7b\x7d") tplOK.tpl [repOK.doc] "20240101_000000").2 =
      StreamlitResult.download [7] "filled_report.docx" docxMime :=
  ⟨rfl, rfl⟩

end ITF
